import Mathlib

/-!
Shallow embedding of the query pipeline of the N365 bot
(`topic_based_retriever.py` and `topic_based_chatbot.py`).

External services (the embedding service, the vector index, the statistical
language detector `langdetect.detect`, and the two LLM chains) are modelled as
pure oracle functions collected in a `Services` record; a call that raises an
exception is modelled by the oracle returning `Except.error msg`, where `msg`
plays the role of `str(e)`.  Every embedded function additionally returns a
`CallLog` counting how many times each external service was invoked, so that
call-count invariants of the spec can be stated.

Modelling conventions:
  * Python strings are Lean `String`s; `len` is `String.length` (both count
    unicode code points).
  * `str.strip()` is `pyStrip`, which removes ASCII whitespace from both ends
    (the unicode-only whitespace code points that Python would also strip do
    not occur in any string this code builds or compares against).
  * the float comparison `len(chars) > len(text) * 0.3` is modelled by the
    exact rational comparison `10 * len(chars) > 3 * len(text)`.
  * the regex character class `\w` (unicode word character) is modelled by
    ASCII alphanumerics, the underscore, and the Arabic-block ranges that this
    corpus uses; `\s` by ASCII whitespace.
  * match scores (Python floats) are modelled as rationals; no embedded
    function inspects a score beyond copying it.
-/

/-! ## Character classes and string helpers -/

/-- The Arabic and Urdu unicode ranges tested by the regex in
`detect_question_language` and `detect_context_language`:
`[؀-ۿݐ-ݿࢠ-ࣿﭐ-﷿ﹰ-﻿]`. -/
def is_arabic_urdu_char (c : Char) : Bool :=
  (0x0600 ≤ c.toNat && c.toNat ≤ 0x06FF) ||
  (0x0750 ≤ c.toNat && c.toNat ≤ 0x077F) ||
  (0x08A0 ≤ c.toNat && c.toNat ≤ 0x08FF) ||
  (0xFB50 ≤ c.toNat && c.toNat ≤ 0xFDFF) ||
  (0xFE70 ≤ c.toNat && c.toNat ≤ 0xFEFF)

/-- Python whitespace (`\s` and the characters removed by `str.strip()`),
restricted to the ASCII range. -/
def is_py_space (c : Char) : Bool :=
  c == ' ' || c == '\t' || c == '\n' || c == '\r' || c == '\x0b' || c == '\x0c'

/-- The regex class `\w`, restricted to ASCII alphanumerics, the underscore
and the Arabic-block characters used by this corpus. -/
def is_word_char (c : Char) : Bool :=
  c.isAlphanum || c == '_' || is_arabic_urdu_char c

/-- Python `str.strip()`: drop whitespace from both ends. -/
def pyStrip (s : String) : String :=
  String.mk (((s.data.dropWhile is_py_space).reverse.dropWhile is_py_space).reverse)

/-! ## Data model -/

/-- Metadata of a Pinecone match; every field is optional because the code
reads each one with `meta.get(key, default)`. -/
structure MatchMeta where
  text : Option String
  source : Option String
  source_url : Option String
  category : Option String
  topic_name : Option String
  topic_folder : Option String
  content_type : Option String
  priority : Option String
deriving Repr, DecidableEq

/-- A match returned by `pinecone_index.query`; `metadata` is optional
because the code guards with `match.metadata or {}`. -/
structure PineconeMatch where
  score : Rat
  metadata : Option MatchMeta
deriving Repr, DecidableEq

/-- The document dictionary built in `search_documents_by_topic`. -/
structure Doc where
  text : String
  source : String
  source_url : String
  category : String
  topic_name : String
  topic_folder : String
  content_type : String
  priority : String
  score : Rat
deriving Repr, DecidableEq

/-- Counts of calls made to each external service during one computation. -/
structure CallLog where
  embedCalls : Nat
  queryCalls : Nat
  translationCalls : Nat
  qaCalls : Nat
  detectCalls : Nat
deriving Repr, DecidableEq

def CallLog.zero : CallLog := ⟨0, 0, 0, 0, 0⟩

/-- One call to `embedder.embed_query` and nothing else. -/
def logEmbed : CallLog := ⟨1, 0, 0, 0, 0⟩

/-- One embedding call followed by one `pinecone_index.query` call. -/
def logEmbedQuery : CallLog := ⟨1, 1, 0, 0, 0⟩

/-- One call to `translation_chain.ainvoke` and nothing else. -/
def logTranslation : CallLog := ⟨0, 0, 1, 0, 0⟩

/-- One call to `qa_chain.ainvoke` and nothing else. -/
def logQa : CallLog := ⟨0, 0, 0, 1, 0⟩

/-- One call to `langdetect.detect` and nothing else. -/
def logDetect : CallLog := ⟨0, 0, 0, 0, 1⟩

instance : Add CallLog :=
  ⟨fun a b =>
    ⟨a.embedCalls + b.embedCalls, a.queryCalls + b.queryCalls,
     a.translationCalls + b.translationCalls, a.qaCalls + b.qaCalls,
     a.detectCalls + b.detectCalls⟩⟩

@[simp] theorem CallLog.add_embedCalls (a b : CallLog) :
    (a + b).embedCalls = a.embedCalls + b.embedCalls := rfl
@[simp] theorem CallLog.add_queryCalls (a b : CallLog) :
    (a + b).queryCalls = a.queryCalls + b.queryCalls := rfl
@[simp] theorem CallLog.add_translationCalls (a b : CallLog) :
    (a + b).translationCalls = a.translationCalls + b.translationCalls := rfl
@[simp] theorem CallLog.add_qaCalls (a b : CallLog) :
    (a + b).qaCalls = a.qaCalls + b.qaCalls := rfl
@[simp] theorem CallLog.add_detectCalls (a b : CallLog) :
    (a + b).detectCalls = a.detectCalls + b.detectCalls := rfl

/-- The external collaborators of the pipeline, as pure oracles.
`Except.error msg` models the call raising an exception whose `str` is
`msg`.  `indexQuery` receives the query vector, `top_k`, and the filter
argument, where `some t` stands for the dict `\x7b"topic_folder": t\x7d`
and `none` for `filter=None`. -/
structure Services where
  embed : String → Except String (List Rat)
  indexQuery : List Rat → Nat → Option String → Except String (List PineconeMatch)
  langDetect : String → Except String String
  translationChain : String → Except String String
  qaChain : String → String → String → Except String String

/-! ## topic_based_retriever.py -/

/-- Lines 55-57 and 76 of `topic_based_retriever.py`: the dict
`filter_dict` is empty unless `topic_folder and topic_folder != "all"`
(Python truthiness: `None` and the empty string are falsy), and an empty
dict is turned into `filter=None` by `filter_dict if filter_dict else None`. -/
def topic_filter_arg : Option String → Option String
  | none => none
  | some t => if t ≠ "" ∧ t ≠ "all" then some t else none

/-- The truthiness test `topic_folder and topic_folder != "all"` (also used
for the message suffix in `process_question_with_topic`). -/
def topic_filter_active : Option String → Bool
  | none => false
  | some t => decide (t ≠ "" ∧ t ≠ "all")

/-- Lines 107-120 of `topic_based_retriever.py`: the document dict built
from one match, with the `meta.get(...)` defaults. -/
def doc_of_match (m : PineconeMatch) : Doc :=
  let meta := m.metadata.getD ⟨none, none, none, none, none, none, none, none⟩
  { text := meta.text.getD ""
    source := meta.source.getD "Unknown"
    source_url := meta.source_url.getD ""
    category := meta.category.getD "General"
    topic_name := meta.topic_name.getD "General"
    topic_folder := meta.topic_folder.getD ""
    content_type := meta.content_type.getD "text"
    priority := meta.priority.getD "medium"
    score := m.score }

/-- `search_documents_by_topic` (lines 14-137).  The embedding failure is
re-raised as `Exception("Failed to create query embedding")`, which is then
caught by the outer `except` of the same function, which returns `[]`; a
vector-search failure sets `top_matches = []` and the function continues.
Hence every failure path yields the empty document list and the function
as a whole never raises. -/
def search_documents_by_topic (svc : Services) (urdu_query : String)
    (topic_folder : Option String) (top_k : Nat) : List Doc × CallLog :=
  match svc.embed urdu_query with
  | .error _ => ([], logEmbed)
  | .ok query_vector =>
    match svc.indexQuery query_vector top_k (topic_filter_arg topic_folder) with
    | .error _ => ([], logEmbedQuery)
    | .ok top_matches => (top_matches.map doc_of_match, logEmbedQuery)

/-- Lines 147-151 of `topic_based_retriever.py`: the attribution header of
one document ( `doc.get('source_url')` is truthy exactly when the field is
a non-empty string, since the dict always carries the key). -/
def attribution (i : Nat) (doc : Doc) : String :=
  let a := "[Source " ++ toString i ++ ": " ++ doc.topic_name ++ " - " ++ doc.source
  let a := if doc.source_url ≠ "" then a ++ " | URL: " ++ doc.source_url else a
  a ++ " | Category: " ++ doc.category ++ "]"

/-- The loop `for i, doc in enumerate(documents, 1)` of
`prepare_context_from_documents_with_attribution`, accumulating
`context_parts`; `i` is the position counter, starting from `start`. -/
def context_parts_aux : Nat → List Doc → List String
  | _, [] => []
  | i, doc :: ds =>
    if pyStrip doc.text ≠ "" then
      (attribution i doc ++ "\n" ++ doc.text) :: context_parts_aux (i + 1) ds
    else
      context_parts_aux (i + 1) ds

/-- The `context_parts` list built by
`prepare_context_from_documents_with_attribution` (1-based enumeration). -/
def context_parts (documents : List Doc) : List String :=
  context_parts_aux 1 documents

/-- `prepare_context_from_documents_with_attribution` (lines 139-156). -/
def prepare_context_from_documents_with_attribution (documents : List Doc) : String :=
  if documents.isEmpty then ""
  else String.intercalate "\n\n---\n\n" (context_parts documents)

/-- `get_relevant_documents_by_topic` (lines 158-169): search with the
default `top_k = 3`, then assemble the context. -/
def get_relevant_documents_by_topic (svc : Services) (urdu_query : String)
    (topic_folder : Option String) : String × CallLog :=
  let r := search_documents_by_topic svc urdu_query topic_folder 3
  (prepare_context_from_documents_with_attribution r.1, r.2)

/-! ## Derived observable: the source numbers of the assembled context

`source_numbers` recomputes, for a document list, the list of indices `i`
that appear in `[Source i: ...]` headers of the assembled context: the loop
of `prepare_context_from_documents_with_attribution` assigns `i` by
enumeration over the full list and emits a header only for documents with
non-blank text.  It is tied to `context_parts` by `length_context_parts_aux`
below. -/

def source_numbers_aux : Nat → List Doc → List Nat
  | _, [] => []
  | i, doc :: ds =>
    if pyStrip doc.text ≠ "" then i :: source_numbers_aux (i + 1) ds
    else source_numbers_aux (i + 1) ds

def source_numbers (documents : List Doc) : List Nat :=
  source_numbers_aux 1 documents

/-! ## topic_based_chatbot.py -/

/-- `detect_question_language` (lines 39-62).  The `try` catches only
`LangDetectException`, raised (if at all) by `langdetect.detect`; every
other step is exception-free, so the function is total.  The float
threshold `len(chars) > len(question) * 0.3` is the exact rational
comparison `10 * count > 3 * len`. -/
def detect_question_language (svc : Services) (question : String) :
    String × CallLog :=
  let arabic_urdu_chars := question.data.filter is_arabic_urdu_char
  if arabic_urdu_chars.length * 10 > question.length * 3 then
    ("ar", CallLog.zero)
  else
    let clean_question :=
      String.mk (question.data.filter fun c => is_word_char c || is_py_space c)
    if (pyStrip clean_question).length < 3 then
      ("en", CallLog.zero)
    else
      match svc.langDetect clean_question with
      | .error _ => ("en", logDetect)
      | .ok lang =>
        (if lang = "ar" || lang = "fa" || lang = "ur" then "ar"
         else if lang = "en" then "en"
         else "en", logDetect)

/-- `should_translate_question` (lines 64-67): translate only when the
detected language is english. -/
def should_translate_question (svc : Services) (question : String) :
    Bool × CallLog :=
  let r := detect_question_language svc question
  (r.1 == "en", r.2)

/-- The result dict of `translate_query_for_retrieval`. -/
structure TransResult where
  translations : String
  urdu_query : String
deriving Repr, DecidableEq

/-- The loop of lines 99-102: first line starting with `Urdu:`, with the
label removed (`str.replace` removes every occurrence) and stripped;
the empty string when no line matches. -/
def extract_urdu_line (translations : String) : String :=
  match (translations.splitOn "\n").find? (fun l => l.startsWith "Urdu:") with
  | some l => pyStrip (l.replace "Urdu:" "")
  | none => ""

/-- `translate_query_for_retrieval` (lines 87-121): on a service failure
the except-branch returns the original question as `urdu_query` and the
failure message in `translations`; nothing is re-raised. -/
def translate_query_for_retrieval (svc : Services) (question : String) :
    TransResult × CallLog :=
  match svc.translationChain question with
  | .ok resp =>
    let translations := pyStrip resp
    let urdu_query := extract_urdu_line translations
    let urdu_query := if urdu_query = "" then pyStrip translations else urdu_query
    ({ translations := translations, urdu_query := urdu_query }, logTranslation)
  | .error e =>
    ({ translations := "Translation failed: " ++ e, urdu_query := question },
     logTranslation)

/-- `generate_answer_with_dual_question` (lines 123-145): the guard
`if not context` answers without calling the LLM; a service failure is
caught and turned into an error-message answer; nothing is re-raised. -/
def generate_answer_with_dual_question (svc : Services)
    (original_question urdu_question context : String) : String × CallLog :=
  if context = "" then
    ("Sorry, I couldn\x27t find relevant information in the knowledge base.",
     CallLog.zero)
  else
    match svc.qaChain original_question urdu_question context with
    | .ok resp => (pyStrip resp, logQa)
    | .error e =>
      ("Sorry, an error occurred while generating the answer: " ++ e, logQa)

/-! Character-level model of the regex search
`re.search(r'\[Source \d+: ([^-]+) -', context)` used by
`extract_topic_name_from_context`.  At a candidate start position the
pattern matches when the text reads `[Source `, one or more digits, `: `,
then a maximal run of characters other than `-` that is followed by a `-`
and whose last character is a space; the captured group is that run minus
its trailing space (the regex engine backtracks `[^-]+` by exactly one
character to leave room for the literal ` -`). -/

/-- Drop an expected literal prefix, or fail. -/
def drop_literal : List Char → List Char → Option (List Char)
  | [], rest => some rest
  | _ :: _, [] => none
  | p :: ps, c :: cs => if c = p then drop_literal ps cs else none

/-- Try to match the pattern at the start of `cs`, returning the captured
group (unstripped). -/
def source_header_capture (cs : List Char) : Option String :=
  match drop_literal "[Source ".data cs with
  | none => none
  | some r1 =>
    let ds := r1.takeWhile Char.isDigit
    if ds.isEmpty then none
    else
      match drop_literal [':', ' '] (r1.drop ds.length) with
      | none => none
      | some r2 =>
        let run := r2.takeWhile (fun c => c ≠ '-')
        match r2.drop run.length with
        | '-' :: _ =>
          if 2 ≤ run.length ∧ run.getLast? = some ' ' then
            some (String.mk run.dropLast)
          else none
        | _ => none

/-- Leftmost match of the pattern anywhere in the text. -/
def scan_for_source_header : List Char → Option String
  | [] => none
  | c :: cs =>
    match source_header_capture (c :: cs) with
    | some s => some s
    | none => scan_for_source_header cs

/-- `extract_topic_name_from_context` (lines 147-157): the stripped first
capture group, or `None` when the pattern does not occur. -/
def extract_topic_name_from_context (context : String) : Option String :=
  (scan_for_source_header context.data).map pyStrip

/-- `context.count("[Source ")` from line 207 (non-overlapping count). -/
def count_sources (context : String) : Nat :=
  (context.splitOn "[Source ").length - 1

/-- The metadata dict of the responses of `process_question_with_topic`.
A field is `none` when the corresponding key is absent from the dict in
that branch.  `processing_time` (wall-clock seconds) is not modelled. -/
structure Meta where
  translations : String
  context_length : Option Nat
  topic_filter : Option (Option String)
  warning : Option String
  identified_topic : Option (Option String)
  sources_count : Option Nat
  error : Option Bool
  error_message : Option String
deriving Repr, DecidableEq

/-- The response dict of `process_question_with_topic`. -/
structure QAResult where
  answer : String
  topic_name : Option String
  metadata : Meta
deriving Repr, DecidableEq

/-- Step 1 of `process_question_with_topic` (lines 173-188): detect the
language, translate when english, otherwise pass the question through with
the fixed `translations` note.  In both branches the local `urdu_query`
equals the `urdu_query` field of the produced `translation_result`. -/
def pipeline_translation (svc : Services) (question : String) :
    TransResult × CallLog :=
  let st := should_translate_question svc question
  if st.1 then
    let tr := translate_query_for_retrieval svc question
    (tr.1, st.2 + tr.2)
  else
    ({ translations := "Not needed - query already in target language",
       urdu_query := question }, st.2)

/-- The context string the orchestrator computes in its retrieval step
(line 196), as a function of the request. -/
def pipeline_context (svc : Services) (question : String)
    (topic_folder : Option String) : String :=
  (get_relevant_documents_by_topic svc
    (pipeline_translation svc question).1.urdu_query topic_folder).1

/-- The error response of the outer `except` of
`process_question_with_topic` (lines 288-298).  In this embedding every
service failure is already handled inside the pipeline (search returns
`[]`, translation and generation return fallback strings, the detector
failure falls back to english), so no exception reaches that handler and
`process_question_with_topic` below never produces this response; it is
the only place a metadata `error` flag is ever set. -/
def process_error_response (e : String) (topic_folder : Option String) : QAResult :=
  { answer := "Sorry, an error occurred: " ++ e
    topic_name := none
    metadata :=
      { translations := ""
        context_length := none
        topic_filter := some topic_folder
        warning := none
        identified_topic := none
        sources_count := none
        error := some true
        error_message := some e } }

/-- `process_question_with_topic` (lines 159-298): translation step,
retrieval, the insufficient-context short circuit
(`if not context or len(context.strip()) < 50`), and answer generation. -/
def process_question_with_topic (svc : Services) (question : String)
    (topic_folder : Option String) : QAResult × CallLog :=
  let tr := pipeline_translation svc question
  let translation_result := tr.1
  let urdu_query := translation_result.urdu_query
  let ret := get_relevant_documents_by_topic svc urdu_query topic_folder
  let context := ret.1
  let source_count := count_sources context
  let log0 := tr.2 + ret.2
  if context = "" ∨ (pyStrip context).length < 50 then
    ({ answer := "Sorry, I couldn\x27t find relevant information in the knowledge base for this specific question" ++
         (if topic_filter_active topic_folder then " in the selected topic" else "") ++ "."
       topic_name := none
       metadata :=
         { translations := translation_result.translations
           context_length := some context.length
           topic_filter := some topic_folder
           warning := some "Context too short or empty"
           identified_topic := none
           sources_count := none
           error := none
           error_message := none } }, log0)
  else
    let topic_name := extract_topic_name_from_context context
    let ga := generate_answer_with_dual_question svc question urdu_query context
    ({ answer := ga.1
       topic_name := topic_name
       metadata :=
         { translations := translation_result.translations
           context_length := some context.length
           topic_filter := some topic_folder
           warning := none
           identified_topic := some topic_name
           sources_count := some source_count
           error := none
           error_message := none } }, log0 + ga.2)

/-- `process_question` (lines 301-303): search all topics. -/
def process_question (svc : Services) (question : String) : QAResult × CallLog :=
  process_question_with_topic svc question none

/-! ## Helper lemmas -/

/-- Stripping never lengthens a string. -/
theorem pyStrip_length_le (s : String) : (pyStrip s).length ≤ s.length := by
  show (((s.data.dropWhile is_py_space).reverse.dropWhile is_py_space).reverse).length
      ≤ s.data.length
  rw [List.length_reverse]
  calc ((s.data.dropWhile is_py_space).reverse.dropWhile is_py_space).length
      ≤ (s.data.dropWhile is_py_space).reverse.length :=
        (List.dropWhile_sublist _).length_le
    _ = (s.data.dropWhile is_py_space).length := List.length_reverse _
    _ ≤ s.data.length := (List.dropWhile_sublist _).length_le

/-- A string of whitespace characters strips to the empty string. -/
theorem pyStrip_eq_empty (s : String) (h : ∀ c ∈ s.data, is_py_space c) :
    pyStrip s = "" := by
  unfold pyStrip
  rw [List.dropWhile_eq_nil_iff.mpr h]
  rfl

/-- Whitespace characters are not Arabic-block characters. -/
theorem is_py_space_not_arabic (c : Char) (h : is_py_space c = true) :
    is_arabic_urdu_char c = false := by
  simp only [is_py_space, Bool.or_eq_true, beq_iff_eq] at h
  rcases h with ((((h | h) | h) | h) | h) | h <;> subst h <;> decide

/-- The language detector log is one of two constants. -/
theorem detect_log_cases (svc : Services) (q : String) :
    (detect_question_language svc q).2 = CallLog.zero ∨
    (detect_question_language svc q).2 = logDetect := by
  simp only [detect_question_language]
  split
  · exact Or.inl rfl
  · split
    · exact Or.inl rfl
    · rcases h : svc.langDetect _ with e | l <;> simp [h]

/-- The translation helper always performs exactly one translation call. -/
theorem translate_log (svc : Services) (q : String) :
    (translate_query_for_retrieval svc q).2 = logTranslation := by
  unfold translate_query_for_retrieval
  rcases h : svc.translationChain q with e | r <;> simp [h]

/-- The retriever log is one of two constants. -/
theorem search_log_cases (svc : Services) (u : String) (tf : Option String)
    (k : Nat) :
    (search_documents_by_topic svc u tf k).2 = logEmbed ∨
    (search_documents_by_topic svc u tf k).2 = logEmbedQuery := by
  unfold search_documents_by_topic
  rcases h : svc.embed u with e | v
  · simp [h]
  · rcases h2 : svc.indexQuery v k (topic_filter_arg tf) with e2 | ms <;> simp [h, h2]

/-- The answer-generation log is one of two constants. -/
theorem generate_log_cases (svc : Services) (a b c : String) :
    (generate_answer_with_dual_question svc a b c).2 = CallLog.zero ∨
    (generate_answer_with_dual_question svc a b c).2 = logQa := by
  unfold generate_answer_with_dual_question
  split
  · exact Or.inl rfl
  · rcases h : svc.qaChain a b c with e | r <;> simp [h]

theorem get_relevant_log_cases (svc : Services) (u : String)
    (tf : Option String) :
    (get_relevant_documents_by_topic svc u tf).2 = logEmbed ∨
    (get_relevant_documents_by_topic svc u tf).2 = logEmbedQuery :=
  search_log_cases svc u tf 3

/-- Step 1 never calls the QA chain. -/
theorem pipeline_translation_qaCalls (svc : Services) (q : String) :
    (pipeline_translation svc q).2.qaCalls = 0 := by
  simp only [pipeline_translation, should_translate_question]
  rcases detect_log_cases svc q with h | h <;>
    split <;>
      simp [h, translate_log, CallLog.zero, logDetect, logTranslation]

/-- Retrieval never calls the QA chain. -/
theorem get_relevant_qaCalls (svc : Services) (u : String)
    (tf : Option String) :
    (get_relevant_documents_by_topic svc u tf).2.qaCalls = 0 := by
  rcases get_relevant_log_cases svc u tf with h | h <;> rw [h] <;> rfl

/-- Retrieval never calls the translation chain. -/
theorem get_relevant_translationCalls (svc : Services) (u : String)
    (tf : Option String) :
    (get_relevant_documents_by_topic svc u tf).2.translationCalls = 0 := by
  rcases get_relevant_log_cases svc u tf with h | h <;> rw [h] <;> rfl

/-- Retrieval always performs exactly one embedding call. -/
theorem get_relevant_embedCalls (svc : Services) (u : String)
    (tf : Option String) :
    (get_relevant_documents_by_topic svc u tf).2.embedCalls = 1 := by
  rcases get_relevant_log_cases svc u tf with h | h <;> rw [h] <;> rfl

/-- Step 1 performs one translation call when the detected language is
english and none otherwise. -/
theorem pipeline_translation_translationCalls (svc : Services) (q : String) :
    (pipeline_translation svc q).2.translationCalls =
      if (detect_question_language svc q).1 = "en" then 1 else 0 := by
  simp only [pipeline_translation, should_translate_question]
  rcases detect_log_cases svc q with h | h <;>
    by_cases he : (detect_question_language svc q).1 = "en" <;>
      simp [he, h, translate_log, CallLog.zero, logDetect, logTranslation]

/-- Step 1 leaves the query unchanged exactly when no translation happens. -/
theorem pipeline_translation_urdu_query (svc : Services) (q : String) :
    (pipeline_translation svc q).1.urdu_query =
      if (detect_question_language svc q).1 = "en" then
        (translate_query_for_retrieval svc q).1.urdu_query
      else q := by
  simp only [pipeline_translation, should_translate_question]
  by_cases he : (detect_question_language svc q).1 = "en" <;> simp [he]

/-- The attributed block of one document, written the way claim C9 reads:
a `[Source i: topic_name - source]` header with the URL segment present
exactly when `source_url` is non-empty and the category segment always
present, followed by a newline and the raw text. -/
def spec_source_block (i : Nat) (d : Doc) : String :=
  if d.source_url = "" then
    "[Source " ++ toString i ++ ": " ++ d.topic_name ++ " - " ++ d.source ++
      " | Category: " ++ d.category ++ "]" ++ "\n" ++ d.text
  else
    "[Source " ++ toString i ++ ": " ++ d.topic_name ++ " - " ++ d.source ++
      " | URL: " ++ d.source_url ++ " | Category: " ++ d.category ++ "]" ++
      "\n" ++ d.text

theorem attribution_block_eq (i : Nat) (d : Doc) :
    attribution i d ++ "\n" ++ d.text = spec_source_block i d := by
  simp only [attribution, spec_source_block]
  by_cases h : d.source_url = "" <;> simp [h]

/-- The `context_parts` loop, characterized over the 1-based enumeration of
the full input list: a document contributes a block exactly when its text
is not blank, and the block carries the position of the document in the
full list. -/
theorem context_parts_aux_eq (docs : List Doc) : ∀ n : Nat,
    context_parts_aux n docs =
      (List.enumFrom n docs).filterMap fun p =>
        if pyStrip p.2.text = "" then none else some (spec_source_block p.1 p.2) := by
  induction docs with
  | nil => intro n; rfl
  | cons d ds ih =>
    intro n
    rw [List.enumFrom_cons, List.filterMap_cons]
    simp only [context_parts_aux]
    by_cases h : pyStrip d.text = "" <;>
      simp [h, ih (n + 1), attribution_block_eq]

/-- Every source number produced from start value `n` is at least `n`. -/
theorem source_numbers_aux_lb (docs : List Doc) : ∀ n m : Nat,
    m ∈ source_numbers_aux n docs → n ≤ m := by
  induction docs with
  | nil => intro n m h; simp [source_numbers_aux] at h
  | cons d ds ih =>
    intro n m h
    simp only [source_numbers_aux] at h
    by_cases hd : pyStrip d.text ≠ ""
    · rw [if_pos hd] at h
      rcases List.mem_cons.mp h with h | h
      · omega
      · have := ih (n + 1) m h; omega
    · rw [if_neg hd] at h
      have := ih (n + 1) m h; omega

/-- Membership in the source-number list: `n + i` occurs exactly when the
document at offset `i` exists and has non-blank text. -/
theorem mem_source_numbers_aux (docs : List Doc) : ∀ n i : Nat,
    ((n + i) ∈ source_numbers_aux n docs ↔
      ∃ d, docs.get? i = some d ∧ pyStrip d.text ≠ "") := by
  induction docs with
  | nil => intro n i; simp [source_numbers_aux]
  | cons d ds ih =>
    intro n i
    simp only [source_numbers_aux]
    by_cases hd : pyStrip d.text ≠ ""
    · rw [if_pos hd]
      cases i with
      | zero =>
        simp only [Nat.add_zero, List.get?_cons_zero]
        constructor
        · intro _; exact ⟨d, rfl, hd⟩
        · intro _; exact List.mem_cons_self _ _
      | succ j =>
        rw [List.get?_cons_succ]
        constructor
        · intro h
          rcases List.mem_cons.mp h with h | h
          · omega
          · have h' : (n + 1) + j ∈ source_numbers_aux (n + 1) ds := by
              have : n + (j + 1) = (n + 1) + j := by omega
              rwa [this] at h
            exact (ih (n + 1) j).mp h'
        · intro h
          have h' := (ih (n + 1) j).mpr h
          have : n + (j + 1) = (n + 1) + j := by omega
          rw [this]
          exact List.mem_cons_of_mem _ h'
    · rw [if_neg hd]
      cases i with
      | zero =>
        simp only [Nat.add_zero, List.get?_cons_zero]
        constructor
        · intro h
          have := source_numbers_aux_lb ds (n + 1) n h; omega
        · rintro ⟨d', hd', hne⟩
          injection hd' with h
          subst h
          exact absurd hne hd
      | succ j =>
        rw [List.get?_cons_succ]
        have : n + (j + 1) = (n + 1) + j := by omega
        rw [this]
        exact ih (n + 1) j

/-- The assembled context has exactly one block per source number. -/
theorem length_source_numbers_aux (docs : List Doc) : ∀ n : Nat,
    (source_numbers_aux n docs).length = (context_parts_aux n docs).length := by
  induction docs with
  | nil => intro n; rfl
  | cons d ds ih =>
    intro n
    simp only [source_numbers_aux, context_parts_aux]
    by_cases h : pyStrip d.text ≠ "" <;> simp [h, ih (n + 1)]

/-- Answer generation never calls the translation chain. -/
theorem generate_translationCalls (svc : Services) (a b c : String) :
    (generate_answer_with_dual_question svc a b c).2.translationCalls = 0 := by
  rcases generate_log_cases svc a b c with h | h <;> rw [h] <;> rfl

/-- Answer generation never calls the embedding service. -/
theorem generate_embedCalls (svc : Services) (a b c : String) :
    (generate_answer_with_dual_question svc a b c).2.embedCalls = 0 := by
  rcases generate_log_cases svc a b c with h | h <;> rw [h] <;> rfl

/-- Step 1 never calls the embedding service. -/
theorem pipeline_translation_embedCalls (svc : Services) (q : String) :
    (pipeline_translation svc q).2.embedCalls = 0 := by
  simp only [pipeline_translation, should_translate_question]
  rcases detect_log_cases svc q with h | h <;>
    split <;>
      simp [h, translate_log, CallLog.zero, logDetect, logTranslation]

/-- Step 1 never queries the vector index. -/
theorem pipeline_translation_queryCalls (svc : Services) (q : String) :
    (pipeline_translation svc q).2.queryCalls = 0 := by
  simp only [pipeline_translation, should_translate_question]
  rcases detect_log_cases svc q with h | h <;>
    split <;>
      simp [h, translate_log, CallLog.zero, logDetect, logTranslation]

/-- The response of `process_question_with_topic` when the assembled
context fails the sufficiency check `not context or len(context.strip()) < 50`. -/
theorem process_insufficient (svc : Services) (q : String) (tf : Option String)
    (h : pipeline_context svc q tf = "" ∨
         (pyStrip (pipeline_context svc q tf)).length < 50) :
    process_question_with_topic svc q tf =
      ({ answer := "Sorry, I couldn\x27t find relevant information in the knowledge base for this specific question" ++
           (if topic_filter_active tf then " in the selected topic" else "") ++ "."
         topic_name := none
         metadata :=
           { translations := (pipeline_translation svc q).1.translations
             context_length := some (pipeline_context svc q tf).length
             topic_filter := some tf
             warning := some "Context too short or empty"
             identified_topic := none
             sources_count := none
             error := none
             error_message := none } },
       (pipeline_translation svc q).2 +
         (get_relevant_documents_by_topic svc
           (pipeline_translation svc q).1.urdu_query tf).2) := by
  have h' : (get_relevant_documents_by_topic svc
      (pipeline_translation svc q).1.urdu_query tf).1 = "" ∨
      (pyStrip ((get_relevant_documents_by_topic svc
        (pipeline_translation svc q).1.urdu_query tf).1)).length < 50 := h
  simp only [process_question_with_topic]
  rw [if_pos h']
  rfl

/-- The response of `process_question_with_topic` when the assembled
context passes the sufficiency check. -/
theorem process_success (svc : Services) (q : String) (tf : Option String)
    (h : ¬(pipeline_context svc q tf = "" ∨
           (pyStrip (pipeline_context svc q tf)).length < 50)) :
    process_question_with_topic svc q tf =
      ({ answer := (generate_answer_with_dual_question svc q
           (pipeline_translation svc q).1.urdu_query (pipeline_context svc q tf)).1
         topic_name := extract_topic_name_from_context (pipeline_context svc q tf)
         metadata :=
           { translations := (pipeline_translation svc q).1.translations
             context_length := some (pipeline_context svc q tf).length
             topic_filter := some tf
             warning := none
             identified_topic :=
               some (extract_topic_name_from_context (pipeline_context svc q tf))
             sources_count := some (count_sources (pipeline_context svc q tf))
             error := none
             error_message := none } },
       (pipeline_translation svc q).2 +
         (get_relevant_documents_by_topic svc
           (pipeline_translation svc q).1.urdu_query tf).2 +
         (generate_answer_with_dual_question svc q
           (pipeline_translation svc q).1.urdu_query
           (pipeline_context svc q tf)).2) := by
  have h' : ¬((get_relevant_documents_by_topic svc
      (pipeline_translation svc q).1.urdu_query tf).1 = "" ∨
      (pyStrip ((get_relevant_documents_by_topic svc
        (pipeline_translation svc q).1.urdu_query tf).1)).length < 50) := h
  simp only [process_question_with_topic]
  rw [if_neg h']
  rfl

/-- Total translation calls of one request: exactly those of step 1. -/
theorem process_translationCalls (svc : Services) (q : String)
    (tf : Option String) :
    (process_question_with_topic svc q tf).2.translationCalls =
      (pipeline_translation svc q).2.translationCalls := by
  simp only [process_question_with_topic]
  split <;>
    simp [get_relevant_translationCalls, generate_translationCalls]

/-- Every request performs exactly one embedding call. -/
theorem process_embedCalls (svc : Services) (q : String) (tf : Option String) :
    (process_question_with_topic svc q tf).2.embedCalls = 1 := by
  simp only [process_question_with_topic]
  split <;>
    simp [get_relevant_embedCalls, generate_embedCalls,
      pipeline_translation_embedCalls]

/-! ## Concrete service instances used by witnesses and counterexamples -/

/-- Services whose embedding call always raises; the other collaborators
answer normally. -/
def svcEmbedFail : Services :=
  { embed := fun _ => .error "quota exceeded"
    indexQuery := fun _ _ _ => .ok []
    langDetect := fun _ => .ok "en"
    translationChain := fun _ => .ok "Urdu: nmaz"
    qaChain := fun _ _ _ => .ok "answer" }

/-- Services for which retrieval finds no matches. -/
def svcNoResults : Services :=
  { embed := fun _ => .ok [1]
    indexQuery := fun _ _ _ => .ok []
    langDetect := fun _ => .ok "en"
    translationChain := fun _ => .ok "Urdu: salam"
    qaChain := fun _ _ _ => .ok "answer" }

/-- Services where every collaborator answers normally. -/
def svcPlain : Services :=
  { embed := fun _ => .ok [1]
    indexQuery := fun _ _ _ => .ok []
    langDetect := fun _ => .ok "en"
    translationChain := fun _ => .ok "Urdu: khali"
    qaChain := fun _ _ _ => .ok "answer" }

/-- Services whose translation call always raises. -/
def svcTransFail : Services :=
  { embed := fun _ => .ok [1]
    indexQuery := fun _ _ _ => .ok []
    langDetect := fun _ => .ok "en"
    translationChain := fun _ => .error "API down"
    qaChain := fun _ _ _ => .ok "answer" }

/-- Index metadata of a match whose text is long enough to pass the
context sufficiency check. -/
def meta1 : MatchMeta :=
  { text := some "The ruling on ablution is detailed in the classical manual at considerable length for students of the subject."
    source := some "Kitab ul Etiqadia"
    source_url := some ""
    category := some "Fiqh"
    topic_name := some "Taharat Cleanliness"
    topic_folder := some "08_Taharat_Cleanliness"
    content_type := some "text"
    priority := some "high" }

/-- Services whose answer-generation call always raises, while retrieval
succeeds with one long document. -/
def svcGenFail : Services :=
  { embed := fun _ => .ok [1, 0]
    indexQuery := fun _ _ _ => .ok [{ score := 1, metadata := some meta1 }]
    langDetect := fun _ => .ok "ur"
    translationChain := fun _ => .ok "Urdu: wuzu"
    qaChain := fun _ _ _ => .error "rate limit" }

/-- Index metadata returned by the probe services. -/
def probeMeta : MatchMeta :=
  { text := some "Unfiltered result"
    source := some "S"
    source_url := some ""
    category := some "General"
    topic_name := some "General"
    topic_folder := some ""
    content_type := some "text"
    priority := some "medium" }

/-- Probe services whose index returns a match exactly when the query is
issued with no filter, making the filter argument observable. -/
def svcProbe : Services :=
  { embed := fun _ => .ok [1]
    indexQuery := fun _ _ f =>
      .ok (match f with
           | none => [{ score := 1, metadata := some probeMeta }]
           | some _ => [])
    langDetect := fun _ => .ok "en"
    translationChain := fun _ => .ok "Urdu: x"
    qaChain := fun _ _ _ => .ok "answer" }

/-- A document whose text is whitespace-only. -/
def dBlank : Doc :=
  { text := "   ", source := "s1", source_url := "", category := "General"
    topic_name := "General", topic_folder := "", content_type := "text"
    priority := "medium", score := 0 }

/-- A document with non-blank text. -/
def dGood : Doc :=
  { text := "Details of the ruling.", source := "Kitab", source_url := "http://example.org"
    category := "Fiqh", topic_name := "Namaz Prayers", topic_folder := "07_Namaz_Prayers"
    content_type := "text", priority := "high", score := 1 }

/-- A retrieval result in which a blank document precedes a non-blank one. -/
def docsSkip : List Doc := [dBlank, dGood]

/-! ## Claims -/

/-- The language-classification algorithm exactly as claim C6 states it
(spec-side definition, to be compared with the embedded
`detect_question_language`): arabic-script when the Arabic-range character
count exceeds 30 percent of the total count, english when the cleaned and
trimmed text is shorter than 3 characters, otherwise the statistical
detector output mapped by ar/fa/ur to arabic-script, en to english, and
anything else or a detector failure to english. -/
def detect_language_per_claim (detector : String → Except String String)
    (question : String) : String :=
  if (question.data.filter is_arabic_urdu_char).length * 10 > question.length * 3 then
    "ar"
  else
    let cleaned := String.mk (question.data.filter fun c => is_word_char c || is_py_space c)
    if (pyStrip cleaned).length < 3 then "en"
    else
      match detector cleaned with
      | .error _ => "en"
      | .ok lang =>
        if lang = "ar" ∨ lang = "fa" ∨ lang = "ur" then "ar"
        else if lang = "en" then "en"
        else "en"

/-- C6 (confirmed): `detect_question_language` computes, for every oracle
and every input, exactly the algorithm stated by the claim: the 30-percent
Arabic-range threshold, the short-input english default, and the
ar/fa/ur-to-ar, en-to-en, otherwise-en mapping of the detector output with
detector failure also mapped to english.  The embedded function is total
and deterministic by construction (it is a Lean function), matching the
never-raises part of the claim. -/
theorem c6_detect_language_refines_claim (svc : Services) (q : String) :
    (detect_question_language svc q).1 = detect_language_per_claim svc.langDetect q := by
  simp only [detect_question_language, detect_language_per_claim]
  split
  · rfl
  · split
    · rfl
    · rcases hl : svc.langDetect
          (String.mk (q.data.filter fun c => is_word_char c || is_py_space c)) with e | l <;>
        simp only [hl]
      by_cases h1 : l = "ar" <;> by_cases h2 : l = "fa" <;>
        by_cases h3 : l = "ur" <;> simp [h1, h2, h3]

/-- C7 (confirmed): over a whole request, the translation chain is called
exactly once when the language classifier returns english and not at all
otherwise, and when translation is skipped the retrieval text is the
original question unchanged. -/
theorem c7_translation_iff_english (svc : Services) (q : String)
    (tf : Option String) :
    (process_question_with_topic svc q tf).2.translationCalls =
      (if (detect_question_language svc q).1 = "en" then 1 else 0) ∧
    (pipeline_translation svc q).1.urdu_query =
      (if (detect_question_language svc q).1 = "en"
       then (translate_query_for_retrieval svc q).1.urdu_query else q) :=
  ⟨by rw [process_translationCalls, pipeline_translation_translationCalls],
   pipeline_translation_urdu_query svc q⟩

/-- C9 (confirmed): context assembly skips exactly the documents whose
text is empty or whitespace-only; each kept document is rendered as a
`[Source i: topic_name - source]` header carrying its 1-based position,
with the URL segment present exactly when `source_url` is non-empty and
the category segment always present, followed by the raw text; the blocks
are joined with the fixed separator in retrieval order; the empty list
yields the empty string. -/
theorem c9_context_assembly :
    prepare_context_from_documents_with_attribution [] = "" ∧
    (∀ docs : List Doc, context_parts docs =
      (List.enumFrom 1 docs).filterMap fun p =>
        if pyStrip p.2.text = "" then none
        else some (spec_source_block p.1 p.2)) ∧
    (∀ docs : List Doc, prepare_context_from_documents_with_attribution docs =
      String.intercalate "\n\n---\n\n" (context_parts docs)) :=
  ⟨rfl, fun docs => context_parts_aux_eq docs 1,
   fun docs => by cases docs <;> rfl⟩

/-- C10 (confirmed): the `[Source i]` index is the document position in
the full input list, assigned before the blank-text skip; hence when a
blank document at position `j` precedes a non-blank one at position `k`,
number `j+1` is absent from the assembled context while `k+1` is present,
the source numbers are not the consecutive run `1..m`, and no renumbering
happens (one block per surviving number). -/
theorem c10_source_numbering_skips (docs : List Doc) (j k : Nat)
    (dj dk : Doc) (hjk : j < k)
    (hj : docs.get? j = some dj) (hk : docs.get? k = some dk)
    (hbl : pyStrip dj.text = "") (hnb : pyStrip dk.text ≠ "") :
    (j + 1) ∉ source_numbers docs ∧
    (k + 1) ∈ source_numbers docs ∧
    source_numbers docs ≠ List.range' 1 (source_numbers docs).length ∧
    (source_numbers docs).length = (context_parts docs).length := by
  have hmem : ∀ i : Nat, ((1 + i) ∈ source_numbers docs ↔
      ∃ d, docs.get? i = some d ∧ pyStrip d.text ≠ "") :=
    fun i => mem_source_numbers_aux docs 1 i
  have hA : (j + 1) ∉ source_numbers docs := by
    intro hin
    have hin' : (1 + j) ∈ source_numbers docs := by rwa [Nat.add_comm]
    rcases (hmem j).mp hin' with ⟨d, hd, hne⟩
    rw [hj] at hd
    injection hd with hdd
    subst hdd
    exact hne hbl
  have hB : (k + 1) ∈ source_numbers docs := by
    have h := (hmem k).mpr ⟨dk, hk, hnb⟩
    rwa [Nat.add_comm] at h
  have hD : (source_numbers docs).length = (context_parts docs).length :=
    length_source_numbers_aux docs 1
  refine ⟨hA, hB, ?_, hD⟩
  intro hEq
  set L := (source_numbers docs).length with hL
  rw [hEq, List.mem_range'_1] at hB
  apply hA
  rw [hEq, List.mem_range'_1]
  omega

/-- Witness for C10 at the concrete list `docsSkip`: the context keeps
only `[Source 2]` and the numbering 1-run is broken. -/
theorem c10_witness :
    (0 + 1) ∉ source_numbers docsSkip ∧
    (1 + 1) ∈ source_numbers docsSkip ∧
    source_numbers docsSkip ≠ List.range' 1 (source_numbers docsSkip).length ∧
    (source_numbers docsSkip).length = (context_parts docsSkip).length :=
  c10_source_numbering_skips docsSkip 0 1 dBlank dGood (by decide) rfl rfl
    (by decide) (by decide)

/-- C2 (confirmed): whenever the assembled context is shorter than 50
characters (the empty context included), the request terminates in the
insufficient-context outcome: the fixed not-found answer (varying only by
the presence of a topic filter in the message), a null `topic_name`, the
warning flag in the metadata, and zero answer-generation calls. -/
theorem c2_short_context_short_circuits (svc : Services) (q : String)
    (tf : Option String) (h : (pipeline_context svc q tf).length < 50) :
    (process_question_with_topic svc q tf).1.answer =
      "Sorry, I couldn\x27t find relevant information in the knowledge base for this specific question" ++
        (if topic_filter_active tf then " in the selected topic" else "") ++ "." ∧
    (process_question_with_topic svc q tf).1.topic_name = none ∧
    (process_question_with_topic svc q tf).1.metadata.warning =
      some "Context too short or empty" ∧
    (process_question_with_topic svc q tf).2.qaCalls = 0 := by
  have h50 : (pyStrip (pipeline_context svc q tf)).length < 50 :=
    lt_of_le_of_lt (pyStrip_length_le _) h
  have hproc := process_insufficient svc q tf (Or.inr h50)
  refine ⟨by rw [hproc], by rw [hproc], by rw [hproc], ?_⟩
  rw [hproc]
  simp [pipeline_translation_qaCalls, get_relevant_qaCalls]

/-- Witness for C2: with services that retrieve no matches, a request with
a topic filter ends in the insufficient outcome with zero QA calls. -/
theorem c2_witness :
    (process_question_with_topic svcNoResults "hello" (some "06_Dua_Collection")).1.answer =
      "Sorry, I couldn\x27t find relevant information in the knowledge base for this specific question" ++
        (if topic_filter_active (some "06_Dua_Collection") then " in the selected topic" else "") ++ "." ∧
    (process_question_with_topic svcNoResults "hello" (some "06_Dua_Collection")).1.topic_name = none ∧
    (process_question_with_topic svcNoResults "hello" (some "06_Dua_Collection")).1.metadata.warning =
      some "Context too short or empty" ∧
    (process_question_with_topic svcNoResults "hello" (some "06_Dua_Collection")).2.qaCalls = 0 :=
  c2_short_context_short_circuits svcNoResults "hello" (some "06_Dua_Collection")
    (by decide)

/-- C4 (confirmed): when the text-generation service raises during the
translation call, `translate_query_for_retrieval` returns the original
question as `urdu_query`, records the failure message in `translations`,
and the pipeline continues (the embedding call of the retrieval step is
still performed). -/
theorem c4_translation_failure_soft_fallback (svc : Services) (q : String)
    (tf : Option String) (e : String)
    (h : svc.translationChain q = Except.error e) :
    (translate_query_for_retrieval svc q).1.urdu_query = q ∧
    (translate_query_for_retrieval svc q).1.translations =
      "Translation failed: " ++ e ∧
    (process_question_with_topic svc q tf).2.embedCalls = 1 := by
  refine ⟨?_, ?_, process_embedCalls svc q tf⟩ <;>
    · unfold translate_query_for_retrieval
      rw [h]

/-- Witness for C4 at concrete failing translation services. -/
theorem c4_witness :
    (translate_query_for_retrieval svcTransFail "hello").1.urdu_query = "hello" ∧
    (translate_query_for_retrieval svcTransFail "hello").1.translations =
      "Translation failed: " ++ "API down" ∧
    (process_question_with_topic svcTransFail "hello" none).2.embedCalls = 1 :=
  c4_translation_failure_soft_fallback svcTransFail "hello" none "API down" rfl

/-- Counterexample to C3: for the whitespace-only question `" "` the
classifier returns english, not the already-in-target-script tag, and the
request therefore performs one translation call — the claim says the
translation chain is not invoked for such input. -/
theorem c3_counterexample :
    (detect_question_language svcPlain " ").1 = "en" ∧
    (detect_question_language svcPlain " ").1 ≠ "ar" ∧
    (should_translate_question svcPlain " ").1 = true ∧
    (process_question_with_topic svcPlain " " none).2.translationCalls = 1 :=
  ⟨rfl, by decide, rfl, rfl⟩

/-- C3 amended (corrected): for every empty or whitespace-only question
the classifier takes the short-input branch and returns english ('en'),
so the translation chain IS invoked (exactly one translation call),
instead of the claimed already-in-target-script branch with no call. -/
theorem c3_amended_whitespace_invokes_translation (svc : Services)
    (q : String) (tf : Option String) (hq : ∀ c ∈ q.data, is_py_space c) :
    (detect_question_language svc q).1 = "en" ∧
    (should_translate_question svc q).1 = true ∧
    (process_question_with_topic svc q tf).2.translationCalls = 1 := by
  have hdet : (detect_question_language svc q).1 = "en" := by
    simp only [detect_question_language]
    have harab : q.data.filter is_arabic_urdu_char = [] :=
      List.filter_eq_nil_iff.mpr fun c hc => by
        simp [is_py_space_not_arabic c (hq c hc)]
    rw [harab, if_neg (by simp)]
    have hclean : q.data.filter (fun c => is_word_char c || is_py_space c) = q.data :=
      List.filter_eq_self.mpr fun c hc => by simp [hq c hc]
    rw [hclean]
    have hstrip : pyStrip (String.mk q.data) = "" := pyStrip_eq_empty q hq
    rw [hstrip, if_pos (by decide)]
  refine ⟨hdet, ?_, ?_⟩
  · simp [should_translate_question, hdet]
  · rw [process_translationCalls, pipeline_translation_translationCalls,
      if_pos hdet]

/-- Witness for the amended C3 at the whitespace question `"   "`. -/
theorem c3_amended_witness :
    (detect_question_language svcPlain "   ").1 = "en" ∧
    (should_translate_question svcPlain "   ").1 = true ∧
    (process_question_with_topic svcPlain "   " none).2.translationCalls = 1 :=
  c3_amended_whitespace_invokes_translation svcPlain "   " none (by decide)

/-- Counterexample to C1: with services whose embedding call raises, the
request does not fail with an error-marked response — the retriever
swallows the exception and returns the empty document list, and the
request ends in the ordinary insufficient-context response (warning set,
no error flag). -/
theorem c1_counterexample :
    (search_documents_by_topic svcEmbedFail "nmaz" none 3).1 = [] ∧
    (process_question_with_topic svcEmbedFail "hello" none).1.answer =
      "Sorry, I couldn\x27t find relevant information in the knowledge base for this specific question." ∧
    (process_question_with_topic svcEmbedFail "hello" none).1.metadata.error = none ∧
    (process_question_with_topic svcEmbedFail "hello" none).1.metadata.warning =
      some "Context too short or empty" ∧
    (process_question_with_topic svcEmbedFail "hello" none).2.qaCalls = 0 :=
  ⟨rfl, rfl, rfl, rfl, rfl⟩

/-- C1 amended (corrected): when the embedding service raises, the raised
exception is caught inside `search_documents_by_topic`, which returns the
empty document list without issuing the vector query; the request then
terminates in the insufficient-context outcome — the fixed not-found
answer with the warning flag and no error flag — rather than an
EmbeddingError-derived failure; the answer-generation service is never
invoked (that part of the claim holds). -/
theorem c1_amended_embedding_failure_degrades (svc : Services)
    (q u : String) (tf : Option String) (k : Nat) (ε : String → String)
    (hembed : ∀ s, svc.embed s = Except.error (ε s)) :
    (search_documents_by_topic svc u tf k).1 = [] ∧
    (search_documents_by_topic svc u tf k).2.queryCalls = 0 ∧
    pipeline_context svc q tf = "" ∧
    (process_question_with_topic svc q tf).1.answer =
      "Sorry, I couldn\x27t find relevant information in the knowledge base for this specific question" ++
        (if topic_filter_active tf then " in the selected topic" else "") ++ "." ∧
    (process_question_with_topic svc q tf).1.metadata.warning =
      some "Context too short or empty" ∧
    (process_question_with_topic svc q tf).1.metadata.error = none ∧
    (process_question_with_topic svc q tf).2.qaCalls = 0 ∧
    (process_question_with_topic svc q tf).2.queryCalls = 0 := by
  have hs : ∀ (u' : String) (k' : Nat),
      search_documents_by_topic svc u' tf k' = ([], logEmbed) := by
    intro u' k'
    unfold search_documents_by_topic
    rw [hembed u']
  have hctx : pipeline_context svc q tf = "" := by
    unfold pipeline_context get_relevant_documents_by_topic
    rw [hs]
    rfl
  have hret : (get_relevant_documents_by_topic svc
      (pipeline_translation svc q).1.urdu_query tf).2 = logEmbed := by
    unfold get_relevant_documents_by_topic
    rw [hs]
  have hproc := process_insufficient svc q tf (Or.inl hctx)
  refine ⟨by rw [hs], by rw [hs]; rfl, hctx, by rw [hproc], by rw [hproc],
    by rw [hproc], ?_, ?_⟩
  · rw [hproc]
    simp [hret, pipeline_translation_qaCalls, logEmbed]
  · rw [hproc]
    simp [hret, pipeline_translation_queryCalls, logEmbed]

/-- Witness for the amended C1 at concrete failing embedding services. -/
theorem c1_amended_witness :
    (search_documents_by_topic svcEmbedFail "wuzu" none 3).1 = [] ∧
    (search_documents_by_topic svcEmbedFail "wuzu" none 3).2.queryCalls = 0 ∧
    pipeline_context svcEmbedFail "salam" none = "" ∧
    (process_question_with_topic svcEmbedFail "salam" none).1.answer =
      "Sorry, I couldn\x27t find relevant information in the knowledge base for this specific question" ++
        (if topic_filter_active none then " in the selected topic" else "") ++ "." ∧
    (process_question_with_topic svcEmbedFail "salam" none).1.metadata.warning =
      some "Context too short or empty" ∧
    (process_question_with_topic svcEmbedFail "salam" none).1.metadata.error = none ∧
    (process_question_with_topic svcEmbedFail "salam" none).2.qaCalls = 0 ∧
    (process_question_with_topic svcEmbedFail "salam" none).2.queryCalls = 0 :=
  c1_amended_embedding_failure_degrades svcEmbedFail "salam" "wuzu" none 3
    (fun _ => "quota exceeded") (fun _ => rfl)

set_option maxRecDepth 100000 in
/-- Counterexample to C5: with services whose answer-generation call
raises after a successful retrieval, the pipeline returns the generation
error message as the answer, but the returned metadata carries no error
flag and no warning — nothing in the response signals an error, contrary
to the claim. -/
theorem c5_counterexample :
    (process_question_with_topic svcGenFail "wuzu kaise karein" none).1.answer =
      "Sorry, an error occurred while generating the answer: rate limit" ∧
    (process_question_with_topic svcGenFail "wuzu kaise karein" none).1.metadata.error = none ∧
    (process_question_with_topic svcGenFail "wuzu kaise karein" none).1.metadata.warning = none ∧
    (process_question_with_topic svcGenFail "wuzu kaise karein" none).2.qaCalls = 1 :=
  ⟨rfl, rfl, rfl, rfl⟩

/-- C5 amended (corrected): when the answer-generation service raises (and
the context passed the sufficiency check), the exception is caught inside
`generate_answer_with_dual_question` and the request returns normally with
the English error-prefix answer carrying the exception text; the exception
does not raise past the orchestrator, but the returned metadata is the
ordinary success metadata — no error flag (and no warning) is set. -/
theorem c5_amended_generation_failure_soft (svc : Services) (q : String)
    (tf : Option String) (e : String)
    (hqa : ∀ a b c, svc.qaChain a b c = Except.error e)
    (h : ¬(pipeline_context svc q tf = "" ∨
           (pyStrip (pipeline_context svc q tf)).length < 50)) :
    (process_question_with_topic svc q tf).1.answer =
      "Sorry, an error occurred while generating the answer: " ++ e ∧
    (process_question_with_topic svc q tf).1.metadata.error = none ∧
    (process_question_with_topic svc q tf).1.metadata.warning = none ∧
    (process_question_with_topic svc q tf).2.qaCalls = 1 := by
  have hctx : pipeline_context svc q tf ≠ "" := fun hc => h (Or.inl hc)
  have hgen : generate_answer_with_dual_question svc q
      (pipeline_translation svc q).1.urdu_query (pipeline_context svc q tf) =
      ("Sorry, an error occurred while generating the answer: " ++ e, logQa) := by
    unfold generate_answer_with_dual_question
    rw [if_neg hctx, hqa]
  have hproc := process_success svc q tf h
  refine ⟨?_, by rw [hproc], by rw [hproc], ?_⟩
  · rw [hproc]
    show (generate_answer_with_dual_question svc q
      (pipeline_translation svc q).1.urdu_query (pipeline_context svc q tf)).1 = _
    rw [hgen]
  · rw [hproc]
    simp [hgen, pipeline_translation_qaCalls, get_relevant_qaCalls, logQa]

set_option maxRecDepth 100000 in
/-- Witness for the amended C5 at concrete failing generation services. -/
theorem c5_amended_witness :
    (process_question_with_topic svcGenFail "namaz kya hai" none).1.answer =
      "Sorry, an error occurred while generating the answer: " ++ "rate limit" ∧
    (process_question_with_topic svcGenFail "namaz kya hai" none).1.metadata.error = none ∧
    (process_question_with_topic svcGenFail "namaz kya hai" none).1.metadata.warning = none ∧
    (process_question_with_topic svcGenFail "namaz kya hai" none).2.qaCalls = 1 :=
  c5_amended_generation_failure_soft svcGenFail "namaz kya hai" none "rate limit"
    (fun _ _ _ => rfl) (by decide)

/-- Counterexample to C8: for the topic_folder value `""` — which is
neither null nor the sentinel `"all"` — the code issues the vector query
with no filter (Python truthiness treats `""` as falsy), observably
behaving exactly like the unfiltered search, whereas the claim requires
the equality filter on `""`. -/
theorem c8_counterexample :
    topic_filter_arg (some "") = none ∧
    (search_documents_by_topic svcProbe "q" (some "") 3).1 =
      (search_documents_by_topic svcProbe "q" none 3).1 ∧
    (search_documents_by_topic svcProbe "q" (some "") 3).1 ≠ [] :=
  ⟨rfl, rfl, by decide⟩

/-- C8 amended (corrected): the vector query carries no filter when
`topic_folder` is null, the empty string, or `"all"`, and the single
equality filter for every other value; `search_documents_by_topic` passes
exactly this argument to the index query. -/
theorem c8_amended_filter_construction (tf : Option String) (svc : Services)
    (q : String) (v : List Rat) (k : Nat)
    (hv : svc.embed q = Except.ok v) :
    topic_filter_arg tf =
      (if tf = none ∨ tf = some "" ∨ tf = some "all" then none else tf) ∧
    (search_documents_by_topic svc q tf k).1 =
      (match svc.indexQuery v k (topic_filter_arg tf) with
       | Except.ok ms => ms.map doc_of_match
       | Except.error _ => []) := by
  constructor
  · rcases tf with _ | t
    · simp [topic_filter_arg]
    · by_cases h1 : t = "" <;> by_cases h2 : t = "all" <;>
        simp [topic_filter_arg, h1, h2]
  · unfold search_documents_by_topic
    rw [hv]
    rcases h2 : svc.indexQuery v k (topic_filter_arg tf) with e | ms <;>
      simp [h2]

/-- Witness for the amended C8 at a real topic folder. -/
theorem c8_amended_witness :
    topic_filter_arg (some "05_Awrad_Prayers") =
      (if (some "05_Awrad_Prayers" : Option String) = none ∨
          some "05_Awrad_Prayers" = some "" ∨
          some "05_Awrad_Prayers" = some "all" then none
       else some "05_Awrad_Prayers") ∧
    (search_documents_by_topic svcProbe "q" (some "05_Awrad_Prayers") 3).1 =
      (match svcProbe.indexQuery [1] 3 (topic_filter_arg (some "05_Awrad_Prayers")) with
       | Except.ok ms => ms.map doc_of_match
       | Except.error _ => []) :=
  c8_amended_filter_construction (some "05_Awrad_Prayers") svcProbe "q" [1] 3 rfl
